import Mathlib

/-!
Verification of the credit-budget gate of `scrape_firecrawl_ratings.py`
(`CreditTracker`) and the per-row accounting of its batch loop (`main`).

The Python code is shallowly embedded: the tracker is a structure holding
the in-memory `credits_used` integer; the `/tmp/firecrawl_credits_used.txt`
file is a `FileState`; Python exceptions during the file write are an
explicit `SaveOutcome` parameter; `int(text.strip())` is the executable
`parsePyInt` composed with `pyStrip`.  All functions are total: a
Python method that catches every exception and returns is modelled as a
total Lean function.
-/

/-- `MAX_CREDITS = 2900` from the configuration block of the script. -/
def MAX_CREDITS : Int := 2900

/-- `CREDITS_PER_SCRAPE = 2` from the configuration block of the script. -/
def CREDITS_PER_SCRAPE : Int := 2

/-- The state of the credit file `/tmp/firecrawl_credits_used.txt`:
absent (`os.path.exists` false), unreadable (`open`/`read` raises), or
present with some text content. -/
inductive FileState where
  | absent : FileState
  | unreadable : FileState
  | content : String → FileState
deriving DecidableEq

/-- Whether the `open(..., 'w')`/`write` in `_save_credits` raises. -/
inductive SaveOutcome where
  | ok : SaveOutcome
  | ioError : SaveOutcome
deriving DecidableEq

/-- Decimal value of a digit character, `none` otherwise. -/
def digitVal (c : Char) : Option Nat :=
  if c.isDigit then some (c.toNat - '0'.toNat) else none

/-- Accumulating decimal reader over the remaining characters. -/
def parseDigitsAux : List Char → Nat → Option Nat
  | [], acc => some acc
  | c :: cs, acc =>
    match digitVal c with
    | some d => parseDigitsAux cs (acc * 10 + d)
    | none => none

/-- A non-empty all-digit character list read as a natural number. -/
def parseDigits : List Char → Option Nat
  | [] => none
  | c :: cs =>
    match digitVal c with
    | some d => parseDigitsAux cs d
    | none => none

/-- The whitespace characters removed by Python `str.strip()` (ASCII
subset: space, tab, newline, carriage return, vertical tab, form
feed). -/
def isPySpace (c : Char) : Bool :=
  c = ' ' || c = '\t' || c = '\n' || c = '\r' || c = '\x0b' || c = '\x0c'

/-- Drops leading whitespace characters. -/
def dropLeadingSpace : List Char → List Char
  | [] => []
  | c :: cs => if isPySpace c then dropLeadingSpace cs else c :: cs

/-- Python `str.strip()`: removes leading and trailing whitespace. -/
def pyStrip (s : String) : String :=
  String.mk (dropLeadingSpace (dropLeadingSpace s.data.reverse).reverse)

/-- Python `int(s)` on an already-stripped string: an optional sign
followed by a non-empty run of decimal digits; anything else fails
(raises `ValueError` in Python, `none` here). -/
def parsePyInt (s : String) : Option Int :=
  match s.data with
  | '-' :: rest => (parseDigits rest).map (fun n => -(n : Int))
  | '+' :: rest => (parseDigits rest).map (fun n => (n : Int))
  | cs => (parseDigits cs).map (fun n => (n : Int))

/-- The in-memory part of `CreditTracker`: the `credits_used` field. -/
structure CreditTracker where
  credits_used : Int
deriving DecidableEq

/-- `CreditTracker._load_credits`: if the file exists, read it and parse
`int(f.read().strip())`; on any exception (missing, unreadable, or
non-numeric content) fall through to `return 0`.  Total: the Python
method catches every exception. -/
def load_credits (fs : FileState) : Int :=
  match fs with
  | FileState.absent => 0
  | FileState.unreadable => 0
  | FileState.content text => (parsePyInt (pyStrip text)).getD 0

/-- `_load_credits` with its (absent) effect on storage made explicit:
the method only reads the file, so the storage component is returned
unchanged. -/
def load_credits_full (fs : FileState) : Int × FileState :=
  (load_credits fs, fs)

/-- `CreditTracker._save_credits`: write `str(self.credits_used)` to the
file; on exception print a warning and continue.  A failed write is
modelled as leaving the previous storage state; no theorem below depends
on the storage left behind by a failed write. -/
def save_credits (used : Int) (o : SaveOutcome) (fs : FileState) : FileState :=
  match o with
  | SaveOutcome.ok => FileState.content (toString used)
  | SaveOutcome.ioError => fs

/-- `CreditTracker.add_credits`: `self.credits_used += amount` then
`self._save_credits()`.  Returns the new in-memory tracker and the new
storage state. -/
def add_credits (t : CreditTracker) (amount : Int) (o : SaveOutcome)
    (fs : FileState) : CreditTracker × FileState :=
  let t' : CreditTracker := { credits_used := t.credits_used + amount }
  (t', save_credits t'.credits_used o fs)

/-- `CreditTracker.can_continue`:
`(self.credits_used + needed) <= MAX_CREDITS`. -/
def can_continue (t : CreditTracker) (needed : Int) : Bool :=
  decide (t.credits_used + needed ≤ MAX_CREDITS)

/-- `can_continue` with its (absent) effect on the tracker and storage
made explicit: the method only reads `self.credits_used`. -/
def can_continue_full (t : CreditTracker) (fs : FileState) (needed : Int) :
    Bool × CreditTracker × FileState :=
  (can_continue t needed, t, fs)

/-- `CreditTracker.get_remaining`: `MAX_CREDITS - self.credits_used`. -/
def get_remaining (t : CreditTracker) : Int :=
  MAX_CREDITS - t.credits_used

/-- `get_remaining` with its (absent) effect on the tracker made
explicit. -/
def get_remaining_full (t : CreditTracker) : Int × CreditTracker :=
  (get_remaining t, t)

/-- Runs a sequence of `add_credits` calls, threading the tracker and the
storage; each list entry carries the amount and whether its save
succeeded. -/
def runGated (t : CreditTracker) (fs : FileState) :
    List (Int × SaveOutcome) → CreditTracker × FileState
  | [] => (t, fs)
  | (a, o) :: rest =>
    runGated (add_credits t a o fs).1 (add_credits t a o fs).2 rest

/-- Checks that every `add_credits` call in the sequence was immediately
preceded by a `can_continue` check that returned true at that point. -/
def gatedOk (t : CreditTracker) (fs : FileState) :
    List (Int × SaveOutcome) → Bool
  | [] => true
  | (a, o) :: rest =>
    can_continue t a &&
      gatedOk (add_credits t a o fs).1 (add_credits t a o fs).2 rest

/-- Outcome of one provider row in the batch loop of `main` (lines
305-352): the scrape raised, or the database update returned false, or
the update succeeded (carrying whether the credit save then succeeded). -/
inductive RowOutcome where
  | scrapeError : RowOutcome
  | updateFailed : RowOutcome
  | updated : SaveOutcome → RowOutcome

/-- The per-row batch-loop state threaded through `main`: the credit
tracker, the credit file, and the `stats` counters. -/
structure BatchState where
  tracker : CreditTracker
  storage : FileState
  success : Nat
  errors : Nat

/-- One iteration of the provider loop in `main` after the
`can_continue` guard passed: on a scrape exception or a failed
`update_provider`, `stats['errors'] += 1` and the tracker is untouched;
only when `update_provider` returns true does the loop run
`stats['success'] += 1` and `tracker.add_credits(CREDITS_PER_SCRAPE)`. -/
def process_row (st : BatchState) (o : RowOutcome) : BatchState :=
  match o with
  | RowOutcome.scrapeError => { st with errors := st.errors + 1 }
  | RowOutcome.updateFailed => { st with errors := st.errors + 1 }
  | RowOutcome.updated so =>
    { st with
      tracker := (add_credits st.tracker CREDITS_PER_SCRAPE so st.storage).1
      storage := (add_credits st.tracker CREDITS_PER_SCRAPE so st.storage).2
      success := st.success + 1 }

/-- Whether `scrape_business_ratings` ran to completion (issuing its
external Firecrawl requests) before the row outcome was decided: it did
whenever control reached the `update_provider` call. -/
def scrape_completed (o : RowOutcome) : Bool :=
  match o with
  | RowOutcome.scrapeError => false
  | RowOutcome.updateFailed => true
  | RowOutcome.updated _ => true

/-- C1: for every sequence of `add_credits` calls with non-negative
amounts in which each call was immediately preceded by a `can_continue`
check returning true at that point, the running `credits_used` never
exceeds `MAX_CREDITS` after any of the calls (i.e. at the end of every
non-empty initial segment of the sequence). -/
theorem credit_gate_monotonic_safety (t : CreditTracker) (fs : FileState)
    (steps p : List (Int × SaveOutcome))
    (hnn : ∀ q ∈ steps, 0 ≤ q.1)
    (hpre : ∃ rest, p ++ rest = steps)
    (hne : p ≠ [])
    (hok : gatedOk t fs steps = true) :
    (runGated t fs p).1.credits_used ≤ MAX_CREDITS := by
  induction p generalizing t fs steps with
  | nil => exact absurd rfl hne
  | cons q p' ih =>
    obtain ⟨a, o⟩ := q
    obtain ⟨rest, hrest⟩ := hpre
    subst hrest
    simp only [gatedOk, Bool.and_eq_true] at hok
    obtain ⟨hcan, hok'⟩ := hok
    simp only [runGated]
    cases p' with
    | nil =>
      simp only [runGated]
      simp only [can_continue, decide_eq_true_eq] at hcan
      simpa [add_credits] using hcan
    | cons q' p'' =>
      exact ih (add_credits t a o fs).1 (add_credits t a o fs).2
        ((q' :: p'') ++ rest)
        (fun r hr => hnn r (List.mem_cons_of_mem _ hr))
        ⟨rest, rfl⟩ (List.cons_ne_nil _ _) hok'

/-- Witness for C1 at the one-step gated sequence `[(2, ok)]` starting
from a fresh tracker. -/
theorem credit_gate_monotonic_safety_witness :
    gatedOk (CreditTracker.mk 0) FileState.absent
        [((2 : Int), SaveOutcome.ok)] = true ∧
    (runGated (CreditTracker.mk 0) FileState.absent
        [((2 : Int), SaveOutcome.ok)]).1.credits_used ≤ MAX_CREDITS :=
  ⟨by decide,
   credit_gate_monotonic_safety (CreditTracker.mk 0) FileState.absent
     [((2 : Int), SaveOutcome.ok)] [((2 : Int), SaveOutcome.ok)]
     (by decide) ⟨[], rfl⟩ (by decide) (by decide)⟩

/-- C2: for non-negative `credits_used` and `needed`, `can_continue`
returns true iff `credits_used + needed ≤ MAX_CREDITS`, and the call
leaves both the tracker and the storage unchanged (it only reads
`self.credits_used`). -/
theorem can_continue_gate_correct (t : CreditTracker) (fs : FileState)
    (needed : Int) (hu : 0 ≤ t.credits_used) (ha : 0 ≤ needed) :
    ((can_continue_full t fs needed).1 = true ↔
      t.credits_used + needed ≤ MAX_CREDITS) ∧
    (can_continue_full t fs needed).2.1 = t ∧
    (can_continue_full t fs needed).2.2 = fs :=
  ⟨by simp [can_continue_full, can_continue], rfl, rfl⟩

/-- Witness for C2 at `credits_used = 10`, `needed = 5`. -/
theorem can_continue_gate_correct_witness :
    (0 : Int) ≤ 10 ∧ (0 : Int) ≤ 5 ∧
    (((can_continue_full (CreditTracker.mk 10) FileState.absent 5).1 = true ↔
        (10 : Int) + 5 ≤ MAX_CREDITS) ∧
      (can_continue_full (CreditTracker.mk 10) FileState.absent 5).2.1 =
        CreditTracker.mk 10 ∧
      (can_continue_full (CreditTracker.mk 10) FileState.absent 5).2.2 =
        FileState.absent) :=
  ⟨by decide, by decide,
   can_continue_gate_correct (CreditTracker.mk 10) FileState.absent 5
     (by decide) (by decide)⟩

/-- C3: `_load_credits` is total (modelling that it never raises) and
yields 0 whenever the file is absent, unreadable, or holds text that
does not parse as an integer. -/
theorem load_credits_fails_open (fs : FileState)
    (h : fs = FileState.absent ∨ fs = FileState.unreadable ∨
      ∃ s, fs = FileState.content s ∧ parsePyInt (pyStrip s) = none) :
    load_credits fs = 0 := by
  rcases h with h | h | ⟨s, h, hp⟩ <;> subst h <;>
    simp [load_credits, *]

/-- Witness for C3 on a file holding the non-numeric text "garbage". -/
theorem load_credits_fails_open_witness :
    parsePyInt (pyStrip "garbage") = none ∧
    load_credits (FileState.content "garbage") = 0 :=
  ⟨by decide,
   load_credits_fails_open (FileState.content "garbage")
     (Or.inr (Or.inr ⟨"garbage", rfl, by decide⟩))⟩

/-- C4: from a tracker with `credits_used = 0`, `add_credits 5` with a
successful save followed by a fresh `_load_credits` over the resulting
storage yields 5, whatever the storage held before. -/
theorem add_then_fresh_load_roundtrip (fs : FileState) :
    load_credits (add_credits (CreditTracker.mk 0) 5 SaveOutcome.ok fs).2
      = 5 :=
  rfl

/-- C5: `add_credits` increments the in-memory `credits_used` by
`amount` whether or not the save raises (the exception is caught and
only logged), and a successful save persists exactly `str` of the new
total. -/
theorem add_credits_increments_despite_save_failure (t : CreditTracker)
    (amount : Int) (o : SaveOutcome) (fs : FileState) :
    (add_credits t amount o fs).1.credits_used =
      t.credits_used + amount ∧
    (add_credits t amount SaveOutcome.ok fs).2 =
      FileState.content (toString (t.credits_used + amount)) :=
  ⟨rfl, rfl⟩

/-- C6: boundary behaviour at the ceiling: with `MAX_CREDITS = 2900` and
`credits_used = 2899`, `can_continue 1` is true, `can_continue 2` is
false; after `add_credits 1`, `get_remaining` is 0 and `can_continue 1`
is false. -/
theorem boundary_at_ceiling :
    MAX_CREDITS = 2900 ∧
    can_continue (CreditTracker.mk 2899) 1 = true ∧
    can_continue (CreditTracker.mk 2899) 2 = false ∧
    get_remaining
      (add_credits (CreditTracker.mk 2899) 1 SaveOutcome.ok
        FileState.absent).1 = 0 ∧
    can_continue
      (add_credits (CreditTracker.mk 2899) 1 SaveOutcome.ok
        FileState.absent).1 1 = false := by
  decide

/-- C7: `get_remaining` returns exactly `MAX_CREDITS - credits_used` and
leaves the tracker unchanged. -/
theorem get_remaining_correct (t : CreditTracker) :
    (get_remaining_full t).1 = MAX_CREDITS - t.credits_used ∧
    (get_remaining_full t).2 = t :=
  ⟨rfl, rfl⟩

/-- C8: `_load_credits` leaves the storage unchanged, and a second load
over the storage left by the first yields the same value. -/
theorem load_credits_idempotent (fs : FileState) :
    (load_credits_full fs).2 = fs ∧
    (load_credits_full ((load_credits_full fs).2)).1 =
      (load_credits_full fs).1 :=
  ⟨rfl, rfl⟩

/-- C9: in the batch loop, the tracker (in-memory and persisted) changes
only when `update_provider` succeeded: a scrape exception or a failed
update leaves both untouched, even though in the failed-update case the
external scrape did run to completion; on success the tracker advances
by `CREDITS_PER_SCRAPE`. -/
theorem spend_recorded_only_after_update_success (st : BatchState)
    (so : SaveOutcome) :
    (process_row st RowOutcome.scrapeError).tracker = st.tracker ∧
    (process_row st RowOutcome.scrapeError).storage = st.storage ∧
    (process_row st RowOutcome.updateFailed).tracker = st.tracker ∧
    (process_row st RowOutcome.updateFailed).storage = st.storage ∧
    scrape_completed RowOutcome.updateFailed = true ∧
    (process_row st (RowOutcome.updated so)).tracker.credits_used =
      st.tracker.credits_used + CREDITS_PER_SCRAPE :=
  ⟨rfl, rfl, rfl, rfl, rfl, rfl⟩

/-- C10: `_load_credits` performs no range validation: any stored text
parsing as the integer `v` loads as exactly `v` (negative values
included), and when `v` exceeds `MAX_CREDITS`, `get_remaining` is
negative and `can_continue` is false for every non-negative amount. -/
theorem load_credits_no_range_validation (s : String) (v : Int)
    (h : parsePyInt (pyStrip s) = some v) :
    load_credits (FileState.content s) = v ∧
    (MAX_CREDITS < v →
      get_remaining (CreditTracker.mk v) < 0 ∧
      ∀ a : Int, 0 ≤ a → can_continue (CreditTracker.mk v) a = false) := by
  refine ⟨by simp [load_credits, h], fun hv => ⟨?_, fun a ha => ?_⟩⟩
  · simp only [get_remaining, MAX_CREDITS] at *
    omega
  · simp only [can_continue, MAX_CREDITS, decide_eq_false_iff_not] at *
    omega

/-- Witness for C10 on a file holding "3000", above the 2900 ceiling. -/
theorem load_credits_no_range_validation_witness :
    parsePyInt (pyStrip "3000") = some 3000 ∧
    (load_credits (FileState.content "3000") = 3000 ∧
      (MAX_CREDITS < 3000 →
        get_remaining (CreditTracker.mk 3000) < 0 ∧
        ∀ a : Int, 0 ≤ a →
          can_continue (CreditTracker.mk 3000) a = false)) :=
  ⟨by decide,
   load_credits_no_range_validation "3000" 3000 (by decide)⟩
